import Mathlib

/-!
Verification development for the asset download engine of the
poliigon-addon-blender repository (modules/poliigon_core).

Shallow embedding of the relevant code:
  * api.py      : DownloadStatus, FileDownload status transitions,
                  PoliigonConnector.download_asset_file
  * addon.py    : PoliigonAddon.queue_download / is_download_queued,
                  the retry loop of download_asset, schedule_downloads
  * assets.py   : SIZES, Texture.find_closest_size / get_size,
                  the data model, _cond_set and the update methods
  * asset_index.py : save_cache / load_cache, update_asset

Python dictionaries are modelled as association lists in insertion
order; raised exceptions are modelled with Option / Except results.
-/

namespace Poliigon

/-- Status lifecycle of one file download (api.py, class DownloadStatus). -/
inductive DownloadStatus where
  | initialized
  | waiting
  | ongoing
  | cancelled
  | done
  | error
  deriving DecidableEq, Repr

/-- Embeds api.py FileDownload.set_status_cancelled: the final states DONE
and ERROR are not overwritten, every other status becomes CANCELLED. -/
def set_status_cancelled (s : DownloadStatus) : DownloadStatus :=
  if s = DownloadStatus.done ∨ s = DownloadStatus.error then s
  else DownloadStatus.cancelled

/-- Embeds api.py FileDownload.set_status_ongoing: refuses (returns false
and keeps the status) only when the status is CANCELLED; any other status,
DONE and ERROR included, becomes ONGOING with result true. The pair is the
new status together with the boolean result of the Python method. -/
def set_status_ongoing (s : DownloadStatus) : DownloadStatus × Bool :=
  if s = DownloadStatus.cancelled then (s, false)
  else (DownloadStatus.ongoing, true)

/-- Embeds api.py FileDownload.set_status_error: unconditional transition. -/
def set_status_error (_ : DownloadStatus) : DownloadStatus :=
  DownloadStatus.error

/-- Embeds api.py FileDownload.set_status_done: unconditional transition. -/
def set_status_done (_ : DownloadStatus) : DownloadStatus :=
  DownloadStatus.done

/-- The two transition calls quantified over by the terminal-state claim. -/
inductive StatusCall where
  | cancel
  | ongoing
  deriving DecidableEq, Repr

/-- Applies one of the two transition calls to a status. -/
def applyStatusCall (s : DownloadStatus) : StatusCall → DownloadStatus
  | StatusCall.cancel => set_status_cancelled s
  | StatusCall.ongoing => (set_status_ongoing s).1

/-- Applies a sequence of transition calls in order. Each Python call holds
the per-descriptor lock, so an interleaving of calls from several threads
is exactly some sequential order of the calls. -/
def applyStatusCalls (s : DownloadStatus) (calls : List StatusCall) : DownloadStatus :=
  calls.foldl applyStatusCall s

/-- Embeds the fields of api.py FileDownload that the download logic reads
and writes (fut, lock and duration carry no download state and are left
out of the model). -/
structure FileDownload where
  asset_id : Int
  url : String
  filename : String
  size_expected : Nat
  size_downloaded : Nat
  status : DownloadStatus
  directory : String
  deriving DecidableEq, Repr

/-- File-system operations that download_asset_file can perform on the
temp-suffixed download path. The rename operation removing the temp suffix
exists in the vocabulary so that the embedding can state that this
function never performs it (addon.py rename_downloads does). -/
inductive FsOp where
  | write_temp
  | delete_temp
  | rename_temp_to_final
  deriving DecidableEq, Repr

/-- Environment of one download_asset_file call: what the file system and
the network return, which chunk sizes the stream yields, at which point a
concurrent set_status_cancelled lands (time 0 is just before the
set_status_ongoing call, time i + 1 is the status check after writing
chunk i; none means no cancellation arrives), and at which chunk index a
write raises OSError (none means writes succeed). -/
structure StreamEnv where
  exists_temp : Bool
  exists_final : Bool
  request_ok : Bool
  has_stream : Bool
  content_length : Nat
  chunks : List Nat
  cancel_time : Option Nat
  write_fail : Option Nat
  deriving DecidableEq, Repr

/-- Result of one download_asset_file call: the ok flag of the returned
ApiResponse, the descriptor after the call, the number of network requests
made and the file-system operations performed in order. -/
structure DlResult where
  ok : Bool
  download : FileDownload
  net_requests : Nat
  fs_ops : List FsOp
  deriving DecidableEq, Repr

/-- How the chunk loop of download_asset_file ended. -/
inductive LoopExit where
  | finished
  | cancelled_stop
  | os_error
  deriving DecidableEq, Repr

/-- True when the concurrent cancellation has landed by the given time. -/
def cancel_seen (cancel_time : Option Nat) (now : Nat) : Bool :=
  match cancel_time with
  | none => false
  | some t => t ≤ now

/-- Embeds the chunk loop of download_asset_file: size_downloaded grows by
the chunk length before the write, a failing write of chunk i exits with
OSError, and after every written chunk the status is checked so that a
concurrent cancellation stops the loop. Returns the accumulated
size_downloaded and the way the loop exited. -/
def stream_chunks (cancel_time write_fail : Option Nat) :
    List Nat → Nat → Nat → Nat × LoopExit
  | [], _, acc => (acc, LoopExit.finished)
  | c :: rest, i, acc =>
    let acc2 := acc + c
    if write_fail = some i then (acc2, LoopExit.os_error)
    else if cancel_seen cancel_time (i + 1) then (acc2, LoopExit.cancelled_stop)
    else stream_chunks cancel_time write_fail rest (i + 1) acc2

/-- Embeds api.py PoliigonConnector.download_asset_file. In order: the
short-circuit when the temp-suffixed or final path already exists (done
status, size_downloaded set to size_expected, success, no network
request); the streaming request and the missing-stream check; the guarded
set_status_ongoing which fails fast when the descriptor was cancelled; the
chunk loop; the OSError branch (status ERROR, failure, temp file kept);
the final size verification, where a triple match gives DONE and success
and any mismatch deletes the temp file and fails. The temp suffix is never
renamed away here. -/
def download_asset_file (env : StreamEnv) (download : FileDownload) : DlResult :=
  if env.exists_temp || env.exists_final then
    { ok := true
      download := { download with
                      status := set_status_done download.status
                      size_downloaded := download.size_expected }
      net_requests := 0
      fs_ops := [] }
  else if !env.request_ok then
    { ok := false, download := download, net_requests := 1, fs_ops := [] }
  else if !env.has_stream then
    { ok := false, download := download, net_requests := 1, fs_ops := [] }
  else
    let status0 := if cancel_seen env.cancel_time 0 then
                     set_status_cancelled download.status
                   else download.status
    let going := set_status_ongoing status0
    if going.2 = false then
      { ok := false
        download := { download with status := going.1 }
        net_requests := 1
        fs_ops := [] }
    else
      let res := stream_chunks env.cancel_time env.write_fail env.chunks 0 0
      match res.2 with
      | LoopExit.os_error =>
        { ok := false
          download := { download with
                          status := set_status_error DownloadStatus.ongoing
                          size_downloaded := res.1 }
          net_requests := 1
          fs_ops := [FsOp.write_temp] }
      | e =>
        if download.size_expected = res.1 ∧ res.1 = env.content_length then
          { ok := true
            download := { download with
                            status := set_status_done DownloadStatus.ongoing
                            size_downloaded := res.1 }
            net_requests := 1
            fs_ops := [FsOp.write_temp] }
        else
          { ok := false
            download := { download with
                            status := if e = LoopExit.cancelled_stop then
                                        DownloadStatus.cancelled
                                      else DownloadStatus.ongoing
                            size_downloaded := res.1 }
            net_requests := 1
            fs_ops := [FsOp.write_temp, FsOp.delete_temp] }

/-- Generic keyed insertion into an association list, matching assignment
to a Python dict key: an existing entry is replaced in place, a new key is
appended at the end (insertion order). -/
def dictSet {α β : Type} [DecidableEq α] (k : α) (v : β) :
    List (α × β) → List (α × β)
  | [] => [(k, v)]
  | (k2, v2) :: rest =>
    if k2 = k then (k, v) :: rest else (k2, v2) :: dictSet k v rest

/-- One entry of PoliigonAddon.download_queue as written by queue_download
(addon.py): the asset the entry was created from, the requested size, the
download_size slot (initialized to None) and whether the future returned
by download_asset has been stored in the entry. -/
structure QueueEntry where
  data_id : Int
  size : Option String
  download_size : Option Nat
  has_future : Bool
  deriving DecidableEq, Repr

/-- The parts of the PoliigonAddon state that queue_download touches: the
download queue (a dict keyed by asset id), the download_cancelled set, and
the list of download_asset jobs submitted to the ASSET_DL thread pool (the
run_threaded decorator on download_asset submits one job per call). -/
structure AddonState where
  download_queue : List (Int × QueueEntry)
  download_cancelled : List Int
  scheduled_jobs : List (Int × Option String)
  deriving DecidableEq, Repr

/-- Embeds addon.py PoliigonAddon.is_download_queued: queued and not
cancelled. -/
def is_download_queued (st : AddonState) (asset_id : Int) : Bool :=
  let cancelled := asset_id ∈ st.download_cancelled
  let queued := (st.download_queue.lookup asset_id).isSome
  queued && !cancelled

/-- Embeds addon.py PoliigonAddon.queue_download: writes a fresh entry
into download_queue under the asset id (replacing any existing entry),
calls download_asset - whose run_threaded decorator submits one new job to
the ASSET_DL pool - and stores the returned future in the entry. -/
def queue_download (st : AddonState) (asset_id : Int) (size : Option String) :
    AddonState :=
  let st1 := { st with
    download_queue :=
      dictSet asset_id ⟨asset_id, size, none, false⟩ st.download_queue }
  let st2 := { st1 with
    scheduled_jobs := st1.scheduled_jobs ++ [(asset_id, size)] }
  { st2 with
    download_queue :=
      dictSet asset_id ⟨asset_id, size, none, true⟩ st2.download_queue }

/-- Outcome of one iteration of the retry loop in addon.py download_asset,
as the loop observes it: either get_download_list returned None (the URL
request failed), or it returned a file list with the given expected sizes
(so size_asset is their sum) whose scheduled downloads then either all
succeed or hit at least one error in the poll loop. -/
inductive AttemptOutcome where
  | url_fail
  | files (sizes : List Nat) (any_error : Bool)
  deriving DecidableEq, Repr

/-- Result of the retry loop of download_asset. -/
inductive DownloadOutcome where
  | success (attempt : Nat)
  | retries_exhausted
  | zero_division_crash
  deriving DecidableEq, Repr

/-- Embeds the bounded retry loop of addon.py download_asset for a user
who never cancels (empty download_cancelled set, so download_update always
returns True). Iteration idx asks get_download_list for the URL list; a
None answer decrements retries and loops. Otherwise the files are
scheduled and the poll loop runs; every poll iteration computes
size_downloaded / size_asset, so a size_asset of 0 - in particular a
successful URL response whose file list is empty - raises
ZeroDivisionError and the download thread dies. When all files complete
without error the attempt succeeds; when any file errors the remaining
downloads are cancelled, retries is decremented and the loop retries. -/
def download_asset_loop (attempts : Nat → AttemptOutcome) :
    Nat → Nat → DownloadOutcome
  | 0, _ => DownloadOutcome.retries_exhausted
  | retries + 1, idx =>
    match attempts idx with
    | AttemptOutcome.url_fail => download_asset_loop attempts retries (idx + 1)
    | AttemptOutcome.files sizes any_error =>
      if sizes.sum = 0 then DownloadOutcome.zero_division_crash
      else if any_error then download_asset_loop attempts retries (idx + 1)
      else DownloadOutcome.success (idx + 1)

/-- Constant MAX_DOWNLOAD_RETRIES from addon.py. -/
def MAX_DOWNLOAD_RETRIES : Nat := 10

/-- The retry loop entered with the full retry budget. -/
def download_asset_retry (attempts : Nat → AttemptOutcome) : DownloadOutcome :=
  download_asset_loop attempts MAX_DOWNLOAD_RETRIES 0

/-- Comparison used by the dl_list.sort call in addon.py
schedule_downloads: ascending size_expected. -/
def size_le (a b : FileDownload) : Prop :=
  a.size_expected ≤ b.size_expected

instance : DecidableRel size_le :=
  fun a b => Nat.decLe a.size_expected b.size_expected

instance : IsTotal FileDownload size_le :=
  ⟨fun a b => Nat.le_total a.size_expected b.size_expected⟩

instance : IsTrans FileDownload size_le :=
  ⟨fun _ _ _ hab hbc => Nat.le_trans hab hbc⟩

/-- Embeds addon.py schedule_downloads: sorts dl_list by size_expected
(Python list.sort is a stable sort; every stable sort computes the same
list, here insertionSort) and then submits the files to the per-asset pool
in that order, setting the directory and the WAITING status on each before
the submit. Returns the files in submission order. -/
def schedule_downloads (dl_list : List FileDownload) (directory : String) :
    List FileDownload :=
  (List.insertionSort size_le dl_list).map
    (fun d => { d with directory := directory, status := DownloadStatus.waiting })

/-- Constant SIZES from assets.py: the canonical ordered size vocabulary. -/
def SIZES : List String :=
  (List.range 18).map (fun i => toString (i + 1) ++ "K") ++ ["HIRES", "WM"]

/-- Embeds the scan loop of assets.py Texture.find_closest_size over the
enumerated canonical SIZES list: a candidate must be in the texture size
list and strictly improve the running minimal distance, so among the
candidates at minimal distance the one found first wins. -/
def closest_scan (tex_sizes : List String) (idx_wanted : Nat) :
    List (Nat × String) → Nat → Option String → Option String
  | [], _, best => best
  | (idx, size_test) :: rest, dist_min, best =>
    let dist := Nat.dist idx_wanted idx
    if size_test ∈ tex_sizes ∧ dist < dist_min then
      closest_scan tex_sizes idx_wanted rest dist (some size_test)
    else
      closest_scan tex_sizes idx_wanted rest dist_min best

/-- Embeds assets.py Texture.find_closest_size for a texture whose sizes
field holds tex_sizes: distance inside SIZES is the metric, dist_min
starts at the length of SIZES. The Python SIZES.index call presumes the
requested size occurs in SIZES (it raises ValueError otherwise); theorems
about this function carry that membership as a hypothesis. -/
def find_closest_size (tex_sizes : List String) (size : String) :
    Option String :=
  closest_scan tex_sizes (SIZES.indexOf size) SIZES.enum SIZES.length none

/-- Embeds assets.py Texture.get_size for a texture whose sizes field
holds tex_sizes: the watermarked size WM is returned unconditionally, an
available size is returned as is, otherwise the closest size is searched
and KeyError is raised when none fits. -/
def get_size (tex_sizes : List String) (size : String) : Except String String :=
  if size = "WM" then Except.ok size
  else if size ∈ tex_sizes then Except.ok size
  else
    match find_closest_size tex_sizes size with
    | none => Except.error ("No suitable size found (request: " ++ size ++ ")")
    | some best => Except.ok best

/-- Distance of two size tokens measured by index distance in SIZES. -/
def size_dist (a b : String) : Nat :=
  Nat.dist (SIZES.indexOf a) (SIZES.indexOf b)

/-- Dynamic Python/JSON value, as stored in the gzip-compressed JSON cache
and inside dynamically typed dataclass fields. The gzip/UTF-8/JSON round
trip is the identity on these values (null, bool, int, str, list,
str-keyed dict), so persistence is modelled on this type directly. -/
inductive PyVal where
  | vnone
  | vbool (b : Bool)
  | vint (n : Int)
  | vstr (s : String)
  | vlist (xs : List PyVal)
  | vdict (xs : List (String × PyVal))

/-- Exceptions raised by the decoding and update paths. -/
inductive PyErr where
  | keyError (k : String)
  | typeError
  | valueError
  | attributeError
  | nameError (n : String)
  | notImplementedError
  deriving DecidableEq, Repr

/-- Supported texture map types (assets.py MapType). The Python IntEnum
aliases UNKNOWN = DEFAULT, JPG = ENV and HDR = LIGHT denote the same
member, so one constructor per distinct value suffices. -/
inductive MapType where
  | DEFAULT
  | ALPHA
  | ALPHAMASKED
  | AO
  | BUMP
  | BUMP16
  | COL
  | DIFF
  | DISP
  | DISP16
  | EMISSIVE
  | ENV
  | FUZZ
  | GLOSS
  | IDMAP
  | LIGHT
  | MASK
  | METALNESS
  | NRM
  | NRM16
  | OVERLAY
  | REFL
  | ROUGHNESS
  | SSS
  | TRANSLUCENCY
  | TRANSMISSION
  deriving DecidableEq, Repr

/-- Integer value of a map type, as serialized to JSON (IntEnum). -/
def MapType.toInt : MapType → Int
  | MapType.DEFAULT => 1
  | MapType.ALPHA => 2
  | MapType.ALPHAMASKED => 3
  | MapType.AO => 4
  | MapType.BUMP => 5
  | MapType.BUMP16 => 6
  | MapType.COL => 7
  | MapType.DIFF => 8
  | MapType.DISP => 9
  | MapType.DISP16 => 10
  | MapType.EMISSIVE => 11
  | MapType.ENV => 12
  | MapType.FUZZ => 13
  | MapType.GLOSS => 14
  | MapType.IDMAP => 15
  | MapType.LIGHT => 16
  | MapType.MASK => 17
  | MapType.METALNESS => 18
  | MapType.NRM => 19
  | MapType.NRM16 => 20
  | MapType.OVERLAY => 21
  | MapType.REFL => 22
  | MapType.ROUGHNESS => 23
  | MapType.SSS => 24
  | MapType.TRANSLUCENCY => 25
  | MapType.TRANSMISSION => 26

/-- Embeds the MapType(value) enum constructor call: ValueError on an
integer that is no member value. -/
def MapType.ofInt (n : Int) : Except PyErr MapType :=
  if n = 1 then Except.ok MapType.DEFAULT
  else if n = 2 then Except.ok MapType.ALPHA
  else if n = 3 then Except.ok MapType.ALPHAMASKED
  else if n = 4 then Except.ok MapType.AO
  else if n = 5 then Except.ok MapType.BUMP
  else if n = 6 then Except.ok MapType.BUMP16
  else if n = 7 then Except.ok MapType.COL
  else if n = 8 then Except.ok MapType.DIFF
  else if n = 9 then Except.ok MapType.DISP
  else if n = 10 then Except.ok MapType.DISP16
  else if n = 11 then Except.ok MapType.EMISSIVE
  else if n = 12 then Except.ok MapType.ENV
  else if n = 13 then Except.ok MapType.FUZZ
  else if n = 14 then Except.ok MapType.GLOSS
  else if n = 15 then Except.ok MapType.IDMAP
  else if n = 16 then Except.ok MapType.LIGHT
  else if n = 17 then Except.ok MapType.MASK
  else if n = 18 then Except.ok MapType.METALNESS
  else if n = 19 then Except.ok MapType.NRM
  else if n = 20 then Except.ok MapType.NRM16
  else if n = 21 then Except.ok MapType.OVERLAY
  else if n = 22 then Except.ok MapType.REFL
  else if n = 23 then Except.ok MapType.ROUGHNESS
  else if n = 24 then Except.ok MapType.SSS
  else if n = 25 then Except.ok MapType.TRANSLUCENCY
  else if n = 26 then Except.ok MapType.TRANSMISSION
  else Except.error PyErr.valueError

/-- Supported model mesh formats (assets.py ModelType). -/
inductive ModelType where
  | FBX
  | BLEND
  | MAX
  | C4D
  deriving DecidableEq, Repr

/-- Integer value of a model type (IntEnum). -/
def ModelType.toInt : ModelType → Int
  | ModelType.FBX => 1
  | ModelType.BLEND => 2
  | ModelType.MAX => 3
  | ModelType.C4D => 4

/-- Embeds the ModelType(value) enum constructor call. -/
def ModelType.ofInt (n : Int) : Except PyErr ModelType :=
  if n = 1 then Except.ok ModelType.FBX
  else if n = 2 then Except.ok ModelType.BLEND
  else if n = 3 then Except.ok ModelType.MAX
  else if n = 4 then Except.ok ModelType.C4D
  else Except.error PyErr.valueError

/-- Supported asset types (assets.py AssetType). -/
inductive AssetType where
  | UNSUPPORTED
  | BRUSH
  | HDRI
  | MODEL
  | TEXTURE
  | SUBSTANCE
  deriving DecidableEq, Repr

/-- Integer value of an asset type (IntEnum). -/
def AssetType.toInt : AssetType → Int
  | AssetType.UNSUPPORTED => 1
  | AssetType.BRUSH => 2
  | AssetType.HDRI => 3
  | AssetType.MODEL => 4
  | AssetType.TEXTURE => 5
  | AssetType.SUBSTANCE => 6

/-- Embeds the AssetType(value) enum constructor call. -/
def AssetType.ofInt (n : Int) : Except PyErr AssetType :=
  if n = 1 then Except.ok AssetType.UNSUPPORTED
  else if n = 2 then Except.ok AssetType.BRUSH
  else if n = 3 then Except.ok AssetType.HDRI
  else if n = 4 then Except.ok AssetType.MODEL
  else if n = 5 then Except.ok AssetType.TEXTURE
  else if n = 6 then Except.ok AssetType.SUBSTANCE
  else Except.error PyErr.valueError

/-- Container for one texture map file on disc (assets.py TextureMap). -/
structure TextureMap where
  directory : String
  filename : String
  lod : Option String
  map_type : MapType
  size : String
  variant : Option String
  deriving DecidableEq, Repr

/-- Identity key of a texture map (assets.py TextureMap._key_tuple): two
maps with equal key occupy the same slot regardless of filename. -/
def TextureMap.key_tuple (tm : TextureMap) :
    MapType × String × Option String × Option String :=
  (tm.map_type, tm.size, tm.variant, tm.lod)

/-- Container for a texture map description from the remote catalog
(assets.py TextureMapDesc). -/
structure TextureMapDesc where
  display_name : String
  filename_preview : String
  map_type_code : String
  sizes : List String
  variants : List String
  deriving DecidableEq, Repr

/-- Container for a Texture (assets.py Texture). The map_descs and maps
dicts keyed by workflow are association lists in insertion order. In the
Python dataclass maps has default_factory dict, so its default is the
empty dict, not None. -/
structure Texture where
  lods : Option (List String)
  map_descs : Option (List (String × List TextureMapDesc))
  maps : Option (List (String × List TextureMap))
  sizes : Option (List String)
  variants : Option (List String)
  watermarked_urls : Option (List String)
  deriving DecidableEq, Repr

/-- Container for an HDRI (assets.py Hdri): background and light
textures, both mandatory. -/
structure Hdri where
  bg : Texture
  light : Texture
  deriving DecidableEq, Repr

/-- Container for a Brush (assets.py Brush). -/
structure Brush where
  alpha : Texture
  deriving DecidableEq, Repr

/-- Container for one model mesh file on disc (assets.py ModelMesh); all
four fields are mandatory. -/
structure ModelMesh where
  directory : String
  filename : String
  lod : String
  model_type : ModelType
  deriving DecidableEq, Repr

/-- Container for a Model (assets.py Model). -/
structure Model where
  lods : Option (List String)
  meshes : Option (List ModelMesh)
  sizes : Option (List String)
  texture : Option Texture
  variants : Option (List String)
  deriving DecidableEq, Repr

/-- Container for an asset (assets.py AssetData). The fields thumb_urls
and published_at are modelled with dynamic values because AssetData.update
assigns thumb_urls data into published_at, which only a dynamic field can
hold. Of the four type payloads at most one is populated. -/
structure AssetData where
  asset_id : Int
  asset_type : AssetType
  asset_name : String
  display_name : Option String
  categories : Option (List String)
  url : Option String
  slug : Option String
  credits : Option Int
  thumb_urls : Option PyVal
  published_at : Option PyVal
  is_local : Option Bool
  downloaded_at : Option Int
  is_purchased : Option Bool
  purchased_at : Option Int
  render_custom_schema : Option (List (String × PyVal))
  brush : Option Brush
  hdri : Option Hdri
  model : Option Model
  texture : Option Texture

/-- Serialization of an optional string (None or str). -/
def pyOptStr : Option String → PyVal
  | none => PyVal.vnone
  | some s => PyVal.vstr s

/-- Serialization of a string list. -/
def pyStrList (l : List String) : PyVal :=
  PyVal.vlist (l.map PyVal.vstr)

/-- Serialization of an optional string list. -/
def pyOptStrList : Option (List String) → PyVal
  | none => PyVal.vnone
  | some l => pyStrList l

/-- Serialization of an optional bool. -/
def pyOptBool : Option Bool → PyVal
  | none => PyVal.vnone
  | some b => PyVal.vbool b

/-- Serialization of an optional int. -/
def pyOptInt : Option Int → PyVal
  | none => PyVal.vnone
  | some n => PyVal.vint n

/-- Serialization of a dynamically typed optional field. -/
def pyRaw : Option PyVal → PyVal
  | none => PyVal.vnone
  | some v => v

/-- Embeds dataclasses.asdict on a TextureMap: one dict entry per field in
declaration order, the IntEnum serialized as its integer value. -/
def TextureMap.asdict (tm : TextureMap) : PyVal :=
  PyVal.vdict [("directory", PyVal.vstr tm.directory),
               ("filename", PyVal.vstr tm.filename),
               ("lod", pyOptStr tm.lod),
               ("map_type", PyVal.vint tm.map_type.toInt),
               ("size", PyVal.vstr tm.size),
               ("variant", pyOptStr tm.variant)]

/-- Embeds dataclasses.asdict on a TextureMapDesc. -/
def TextureMapDesc.asdict (tmd : TextureMapDesc) : PyVal :=
  PyVal.vdict [("display_name", PyVal.vstr tmd.display_name),
               ("filename_preview", PyVal.vstr tmd.filename_preview),
               ("map_type_code", PyVal.vstr tmd.map_type_code),
               ("sizes", pyStrList tmd.sizes),
               ("variants", pyStrList tmd.variants)]

/-- Serialization of an optional workflow-keyed dict of lists. -/
def pyWorkflowDict {α : Type} (enc : α → PyVal) :
    Option (List (String × List α)) → PyVal
  | none => PyVal.vnone
  | some entries =>
    PyVal.vdict (entries.map (fun p => (p.1, PyVal.vlist (p.2.map enc))))

/-- Embeds dataclasses.asdict on a Texture. -/
def Texture.asdict (t : Texture) : PyVal :=
  PyVal.vdict [("lods", pyOptStrList t.lods),
               ("map_descs", pyWorkflowDict TextureMapDesc.asdict t.map_descs),
               ("maps", pyWorkflowDict TextureMap.asdict t.maps),
               ("sizes", pyOptStrList t.sizes),
               ("variants", pyOptStrList t.variants),
               ("watermarked_urls", pyOptStrList t.watermarked_urls)]

/-- Embeds dataclasses.asdict on an Hdri. -/
def Hdri.asdict (h : Hdri) : PyVal :=
  PyVal.vdict [("bg", h.bg.asdict), ("light", h.light.asdict)]

/-- Embeds dataclasses.asdict on a Brush. -/
def Brush.asdict (b : Brush) : PyVal :=
  PyVal.vdict [("alpha", b.alpha.asdict)]

/-- Embeds dataclasses.asdict on a ModelMesh. -/
def ModelMesh.asdict (mm : ModelMesh) : PyVal :=
  PyVal.vdict [("directory", PyVal.vstr mm.directory),
               ("filename", PyVal.vstr mm.filename),
               ("lod", PyVal.vstr mm.lod),
               ("model_type", PyVal.vint mm.model_type.toInt)]

/-- Embeds dataclasses.asdict on a Model. -/
def Model.asdict (m : Model) : PyVal :=
  PyVal.vdict [("lods", pyOptStrList m.lods),
               ("meshes",
                match m.meshes with
                | none => PyVal.vnone
                | some l => PyVal.vlist (l.map ModelMesh.asdict)),
               ("sizes", pyOptStrList m.sizes),
               ("texture",
                match m.texture with
                | none => PyVal.vnone
                | some t => t.asdict),
               ("variants", pyOptStrList m.variants)]

/-- Embeds dataclasses.asdict on an AssetData, the shape written to the
cache file by save_cache. -/
def AssetData.asdict (a : AssetData) : PyVal :=
  PyVal.vdict [("asset_id", PyVal.vint a.asset_id),
               ("asset_type", PyVal.vint a.asset_type.toInt),
               ("asset_name", PyVal.vstr a.asset_name),
               ("display_name", pyOptStr a.display_name),
               ("categories", pyOptStrList a.categories),
               ("url", pyOptStr a.url),
               ("slug", pyOptStr a.slug),
               ("credits", pyOptInt a.credits),
               ("thumb_urls", pyRaw a.thumb_urls),
               ("published_at", pyRaw a.published_at),
               ("is_local", pyOptBool a.is_local),
               ("downloaded_at", pyOptInt a.downloaded_at),
               ("is_purchased", pyOptBool a.is_purchased),
               ("purchased_at", pyOptInt a.purchased_at),
               ("render_custom_schema",
                match a.render_custom_schema with
                | none => PyVal.vnone
                | some entries => PyVal.vdict entries),
               ("brush",
                match a.brush with
                | none => PyVal.vnone
                | some b => b.asdict),
               ("hdri",
                match a.hdri with
                | none => PyVal.vnone
                | some h => h.asdict),
               ("model",
                match a.model with
                | none => PyVal.vnone
                | some m => m.asdict),
               ("texture",
                match a.texture with
                | none => PyVal.vnone
                | some t => t.asdict)]

/-- Key lookup in a serialized dict. -/
def pyGet (d : List (String × PyVal)) (k : String) : Option PyVal :=
  d.lookup k

/-- Key membership in a serialized dict (the Python in operator). -/
def pyHas (d : List (String × PyVal)) (k : String) : Bool :=
  (d.lookup k).isSome

/-- Reads a str-typed dataclass field. -/
def asStr : PyVal → Except PyErr String
  | PyVal.vstr s => Except.ok s
  | _ => Except.error PyErr.typeError

/-- Reads an Optional str dataclass field. -/
def asOptStr : PyVal → Except PyErr (Option String)
  | PyVal.vnone => Except.ok none
  | PyVal.vstr s => Except.ok (some s)
  | _ => Except.error PyErr.typeError

/-- Reads an int-typed dataclass field. -/
def asInt : PyVal → Except PyErr Int
  | PyVal.vint n => Except.ok n
  | _ => Except.error PyErr.typeError

/-- Reads an Optional int dataclass field. -/
def asOptInt : PyVal → Except PyErr (Option Int)
  | PyVal.vnone => Except.ok none
  | PyVal.vint n => Except.ok (some n)
  | _ => Except.error PyErr.typeError

/-- Reads an Optional bool dataclass field. -/
def asOptBool : PyVal → Except PyErr (Option Bool)
  | PyVal.vnone => Except.ok none
  | PyVal.vbool b => Except.ok (some b)
  | _ => Except.error PyErr.typeError

/-- Reads a list-of-str dataclass field. -/
def asStrList : PyVal → Except PyErr (List String)
  | PyVal.vlist xs => xs.mapM asStr
  | _ => Except.error PyErr.typeError

/-- Reads an Optional list-of-str dataclass field. -/
def asOptStrList : PyVal → Except PyErr (Option (List String))
  | PyVal.vnone => Except.ok none
  | PyVal.vlist xs => (xs.mapM asStr).map some
  | _ => Except.error PyErr.typeError

/-- Reads a dynamically typed optional field without conversion (the
constructor call cls(**d) stores raw values as they are). -/
def asRaw : PyVal → Option PyVal
  | PyVal.vnone => none
  | v => some v

/-- Reads one field for a cls(**d) constructor call: a present key is
decoded, a missing key falls back to the given dataclass default (an error
default models a mandatory field, where the missing argument raises
TypeError). The Python constructor performs no type check; the decoders
reject values of the wrong shape, which no dict produced by asdict of a
well-typed instance contains. -/
def readField {α : Type} (d : List (String × PyVal)) (k : String)
    (dec : PyVal → Except PyErr α) (dflt : Except PyErr α) :
    Except PyErr α :=
  match pyGet d k with
  | some v => dec v
  | none => dflt

/-- Embeds assets.py TextureMap._from_dict: KeyError when map_type is
missing, then the constructor call and the MapType conversion. -/
def TextureMap_from_dict (v : PyVal) : Except PyErr TextureMap :=
  match v with
  | PyVal.vdict d =>
    if ¬ pyHas d "map_type" then Except.error (PyErr.keyError "map_type")
    else do
      let directory ← readField d "directory" asStr (Except.ok "")
      let filename ← readField d "filename" asStr (Except.ok "")
      let lod ← readField d "lod" asOptStr (Except.ok none)
      let map_type_raw ← readField d "map_type" asInt
        (Except.error PyErr.typeError)
      let size ← readField d "size" asStr (Except.ok "1K")
      let variant ← readField d "variant" asOptStr (Except.ok none)
      let map_type ← MapType.ofInt map_type_raw
      Except.ok ⟨directory, filename, lod, map_type, size, variant⟩
  | _ => Except.error PyErr.typeError

/-- Embeds assets.py TextureMapDesc._from_dict: KeyError when
map_type_code is missing, then the constructor call (all five fields
mandatory). -/
def TextureMapDesc_from_dict (v : PyVal) : Except PyErr TextureMapDesc :=
  match v with
  | PyVal.vdict d =>
    if ¬ pyHas d "map_type_code" then
      Except.error (PyErr.keyError "map_type_code")
    else do
      let display_name ← readField d "display_name" asStr
        (Except.error PyErr.typeError)
      let filename_preview ← readField d "filename_preview" asStr
        (Except.error PyErr.typeError)
      let map_type_code ← readField d "map_type_code" asStr
        (Except.error PyErr.typeError)
      let sizes ← readField d "sizes" asStrList (Except.error PyErr.typeError)
      let variants ← readField d "variants" asStrList
        (Except.error PyErr.typeError)
      Except.ok ⟨display_name, filename_preview, map_type_code, sizes, variants⟩
  | _ => Except.error PyErr.typeError

/-- Decodes a workflow-keyed dict of lists, replacing every serialized
element by its decoded class instance, as the in-place loops of
Texture._from_dict do. -/
def decWorkflowLists {α : Type} (dec : PyVal → Except PyErr α) :
    PyVal → Except PyErr (Option (List (String × List α)))
  | PyVal.vnone => Except.ok none
  | PyVal.vdict entries => do
    let l ← entries.mapM (fun p => do
      match p.2 with
      | PyVal.vlist xs => do
        let ys ← xs.mapM dec
        pure (p.1, ys)
      | _ => Except.error PyErr.typeError)
    pure (some l)
  | _ => Except.error PyErr.typeError

/-- Embeds assets.py Texture._from_dict: KeyError when map_descs or maps
is missing, in-place decoding of both workflow dicts, then the
constructor call. -/
def Texture_from_dict (v : PyVal) : Except PyErr Texture :=
  match v with
  | PyVal.vdict d =>
    if ¬ pyHas d "map_descs" then Except.error (PyErr.keyError "map_descs")
    else if ¬ pyHas d "maps" then Except.error (PyErr.keyError "maps")
    else do
      let map_descs ← readField d "map_descs"
        (decWorkflowLists TextureMapDesc_from_dict)
        (Except.error PyErr.typeError)
      let maps ← readField d "maps" (decWorkflowLists TextureMap_from_dict)
        (Except.ok (some []))
      let lods ← readField d "lods" asOptStrList (Except.ok none)
      let sizes ← readField d "sizes" asOptStrList (Except.ok none)
      let variants ← readField d "variants" asOptStrList (Except.ok none)
      let watermarked_urls ← readField d "watermarked_urls" asOptStrList
        (Except.ok none)
      Except.ok ⟨lods, map_descs, maps, sizes, variants, watermarked_urls⟩
  | _ => Except.error PyErr.typeError

/-- Embeds assets.py Hdri._from_dict: KeyError when bg or light is
missing, then both textures are decoded. -/
def Hdri_from_dict (v : PyVal) : Except PyErr Hdri :=
  match v with
  | PyVal.vdict d =>
    if ¬ pyHas d "bg" then Except.error (PyErr.keyError "bg")
    else if ¬ pyHas d "light" then Except.error (PyErr.keyError "light")
    else do
      let bg ← Texture_from_dict ((pyGet d "bg").getD PyVal.vnone)
      let light ← Texture_from_dict ((pyGet d "light").getD PyVal.vnone)
      Except.ok ⟨bg, light⟩
  | _ => Except.error PyErr.typeError

/-- Embeds assets.py Brush._from_dict. -/
def Brush_from_dict (v : PyVal) : Except PyErr Brush :=
  match v with
  | PyVal.vdict d =>
    if ¬ pyHas d "alpha" then Except.error (PyErr.keyError "alpha")
    else do
      let alpha ← Texture_from_dict ((pyGet d "alpha").getD PyVal.vnone)
      Except.ok ⟨alpha⟩
  | _ => Except.error PyErr.typeError

/-- Embeds assets.py ModelMesh._from_dict: KeyError when model_type is
missing, then the constructor call (all fields mandatory) and the
ModelType conversion. -/
def ModelMesh_from_dict (v : PyVal) : Except PyErr ModelMesh :=
  match v with
  | PyVal.vdict d =>
    if ¬ pyHas d "model_type" then Except.error (PyErr.keyError "model_type")
    else do
      let directory ← readField d "directory" asStr
        (Except.error PyErr.typeError)
      let filename ← readField d "filename" asStr
        (Except.error PyErr.typeError)
      let lod ← readField d "lod" asStr (Except.error PyErr.typeError)
      let model_type_raw ← readField d "model_type" asInt
        (Except.error PyErr.typeError)
      let model_type ← ModelType.ofInt model_type_raw
      Except.ok ⟨directory, filename, lod, model_type⟩
  | _ => Except.error PyErr.typeError

/-- Embeds the Python in operator on a string: substring containment. -/
def py_in_str (needle hay : String) : Bool :=
  (hay.splitOn needle).length != 1

/-- Embeds Texture._from_dict applied to a plain string, which happens
inside Model._from_dict when the texture loop iterates the keys of the
serialized texture dict: the membership checks become substring tests, so
a key without the substring map_descs raises KeyError("map_descs"), one
without maps raises KeyError("maps"), and otherwise indexing the string
with a string key raises TypeError. -/
def Texture_from_dict_str (s : String) : Except PyErr Texture :=
  if ¬ py_in_str "map_descs" s then Except.error (PyErr.keyError "map_descs")
  else if ¬ py_in_str "maps" s then Except.error (PyErr.keyError "maps")
  else Except.error PyErr.typeError

/-- Embeds the texture branch of Model._from_dict. The source iterates
enumerate(tex_list) and assigns into the misspelled name tex_listt. A None
value skips the loop and the field stays None. For a dict value iteration
yields the keys: the first key goes through Texture._from_dict (see
Texture_from_dict_str); were that to succeed, the assignment into the
undefined tex_listt would raise NameError. For a list value the first
element goes through Texture._from_dict with the same NameError waiting. A
nonempty raw container surviving the loop cannot happen; an empty one
leaves the raw value for cls(**d), a state a typed field cannot hold
(modelled as TypeError, unreachable from asdict output of a well-typed
Model). -/
def Model_texture_branch : PyVal → Except PyErr (Option Texture)
  | PyVal.vnone => Except.ok none
  | PyVal.vdict entries =>
    match entries with
    | [] => Except.error PyErr.typeError
    | (k, _) :: _ =>
      match Texture_from_dict_str k with
      | Except.error e => Except.error e
      | Except.ok _ => Except.error (PyErr.nameError "tex_listt")
  | PyVal.vlist xs =>
    match xs with
    | [] => Except.error PyErr.typeError
    | x :: _ =>
      match Texture_from_dict x with
      | Except.error e => Except.error e
      | Except.ok _ => Except.error (PyErr.nameError "tex_listt")
  | _ => Except.error PyErr.typeError

/-- Reads the remaining Model fields once the meshes value has been
processed: the texture branch, then the constructor call. -/
def Model_fields (d : List (String × PyVal)) (meshes : Option (List ModelMesh)) :
    Except PyErr Model := do
  let texture ← Model_texture_branch ((pyGet d "texture").getD PyVal.vnone)
  let lods ← readField d "lods" asOptStrList (Except.ok none)
  let sizes ← readField d "sizes" asOptStrList (Except.ok none)
  let variants ← readField d "variants" asOptStrList (Except.ok none)
  Except.ok ⟨lods, meshes, sizes, texture, variants⟩

mutual

/-- Structural size of a dynamic value; exceeds the depth of every chain
of nested sub-values. -/
def PyVal.psize : PyVal → Nat
  | PyVal.vnone => 1
  | PyVal.vbool _ => 1
  | PyVal.vint _ => 1
  | PyVal.vstr _ => 1
  | PyVal.vlist xs => 1 + PyVal.psizeList xs
  | PyVal.vdict xs => 1 + PyVal.psizeDict xs

/-- Structural size of a list of dynamic values. -/
def PyVal.psizeList : List PyVal → Nat
  | [] => 0
  | x :: rest => 1 + PyVal.psize x + PyVal.psizeList rest

/-- Structural size of a str-keyed dict of dynamic values. -/
def PyVal.psizeDict : List (String × PyVal) → Nat
  | [] => 0
  | (_, v) :: rest => 1 + PyVal.psize v + PyVal.psizeDict rest

end

/-- Fuel-indexed body of Model._from_dict. The recursion of the source
(the meshes loop feeds list elements back into Model._from_dict) descends
into strict sub-values, and the sizeOf of a PyVal exceeds the depth of any
chain of sub-values, so calling this with fuel = sizeOf of the argument
reproduces the unbounded Python recursion exactly; the fuel-exhausted
branch is unreachable from the psize entry point. -/
def Model_from_dict_go : Nat → PyVal → Except PyErr Model
  | 0, _ => Except.error PyErr.typeError
  | fuel + 1, PyVal.vdict d =>
    if ¬ pyHas d "meshes" then Except.error (PyErr.keyError "meshes")
    else if ¬ pyHas d "texture" then Except.error (PyErr.keyError "texture")
    else
      match pyGet d "meshes" with
      | none => Except.error (PyErr.keyError "meshes")
      | some PyVal.vnone => Model_fields d none
      | some (PyVal.vlist xs) =>
        match xs.mapM (Model_from_dict_go fuel) with
        | Except.error e => Except.error e
        | Except.ok _ =>
          if xs.isEmpty then Model_fields d (some [])
          else Except.error PyErr.typeError
      | some (PyVal.vbool _) => Except.error PyErr.typeError
      | some (PyVal.vint _) => Except.error PyErr.typeError
      | some (PyVal.vstr _) => Except.error PyErr.typeError
      | some (PyVal.vdict _) => Except.error PyErr.typeError
  | _ + 1, _ => Except.error PyErr.typeError

/-- Embeds assets.py Model._from_dict: KeyError when meshes or texture is
missing; then the meshes loop, which the source routes through
Model._from_dict itself instead of ModelMesh._from_dict, so every element
of a nonempty meshes list recurses into this function (and every mesh dict
produced by asdict lacks a meshes key, raising KeyError("meshes")); a list
surviving the loop nonempty would hold Model instances in a ModelMesh slot
(modelled as TypeError, unreachable from asdict output); then the texture
branch and the constructor call. -/
def Model_from_dict (v : PyVal) : Except PyErr Model :=
  Model_from_dict_go v.psize v

/-- True exactly on the serialized None value. -/
def PyVal.isNone : PyVal → Bool
  | PyVal.vnone => true
  | _ => false

/-- Decodes the render_custom_schema field: the raw dict is stored as is. -/
def asOptSchema : PyVal → Except PyErr (Option (List (String × PyVal)))
  | PyVal.vnone => Except.ok none
  | PyVal.vdict entries => Except.ok (some entries)
  | _ => Except.error PyErr.typeError

/-- Embeds assets.py AssetData._from_dict: KeyError when asset_type is
missing, the constructor call, the AssetType conversion, then the
elif chain decoding the first non-None type payload through the matching
class decoder. Python would leave any further non-None payload as a raw
dict; a typed field cannot hold that state (modelled as TypeError,
unreachable for assets carrying one payload). -/
def AssetData_from_dict (v : PyVal) : Except PyErr AssetData :=
  match v with
  | PyVal.vdict d =>
    if ¬ pyHas d "asset_type" then Except.error (PyErr.keyError "asset_type")
    else do
      let asset_id ← readField d "asset_id" asInt (Except.error PyErr.typeError)
      let asset_type_raw ← readField d "asset_type" asInt
        (Except.error PyErr.typeError)
      let asset_name ← readField d "asset_name" asStr
        (Except.error PyErr.typeError)
      let display_name ← readField d "display_name" asOptStr (Except.ok none)
      let categories ← readField d "categories" asOptStrList (Except.ok none)
      let url ← readField d "url" asOptStr (Except.ok none)
      let slug ← readField d "slug" asOptStr (Except.ok none)
      let credits ← readField d "credits" asOptInt (Except.ok none)
      let thumb_urls := asRaw ((pyGet d "thumb_urls").getD PyVal.vnone)
      let published_at := asRaw ((pyGet d "published_at").getD PyVal.vnone)
      let is_local ← readField d "is_local" asOptBool (Except.ok none)
      let downloaded_at ← readField d "downloaded_at" asOptInt (Except.ok none)
      let is_purchased ← readField d "is_purchased" asOptBool (Except.ok none)
      let purchased_at ← readField d "purchased_at" asOptInt (Except.ok none)
      let render_custom_schema ← readField d "render_custom_schema" asOptSchema
        (Except.ok none)
      let asset_type ← AssetType.ofInt asset_type_raw
      let braw := (pyGet d "brush").getD PyVal.vnone
      let hraw := (pyGet d "hdri").getD PyVal.vnone
      let mraw := (pyGet d "model").getD PyVal.vnone
      let traw := (pyGet d "texture").getD PyVal.vnone
      let base : AssetData :=
        { asset_id := asset_id, asset_type := asset_type,
          asset_name := asset_name, display_name := display_name,
          categories := categories, url := url, slug := slug,
          credits := credits, thumb_urls := thumb_urls,
          published_at := published_at, is_local := is_local,
          downloaded_at := downloaded_at, is_purchased := is_purchased,
          purchased_at := purchased_at,
          render_custom_schema := render_custom_schema,
          brush := none, hdri := none, model := none, texture := none }
      match braw with
      | PyVal.vnone =>
        match hraw with
        | PyVal.vnone =>
          match mraw with
          | PyVal.vnone =>
            match traw with
            | PyVal.vnone => Except.ok base
            | tv => do
              let t ← Texture_from_dict tv
              Except.ok { base with texture := some t }
          | mv => do
            let m ← Model_from_dict mv
            if traw.isNone then
              Except.ok { base with model := some m }
            else Except.error PyErr.typeError
        | hv => do
          let h ← Hdri_from_dict hv
          if mraw.isNone && traw.isNone then
            Except.ok { base with hdri := some h }
          else Except.error PyErr.typeError
      | bv => do
        let b ← Brush_from_dict bv
        if hraw.isNone && mraw.isNone && traw.isNone then
          Except.ok { base with brush := some b }
        else Except.error PyErr.typeError
  | _ => Except.error PyErr.typeError

/-- Embeds asset_index.py AssetIndex.save_cache: all_assets (a dict in
insertion order) is serialized value by value with asdict and written out
as a JSON array; the gzip/JSON byte level is the identity on these
values. -/
def save_cache (all_assets : List (Int × AssetData)) : List PyVal :=
  all_assets.map (fun p => p.2.asdict)

/-- Embeds asset_index.py AssetIndex.load_cache: every array element is
decoded with AssetData._from_dict and inserted into a fresh all_assets
dict under its asset_id; the first decoding error propagates out of the
call. The trailing _verify_cache call is a no-op in the source. -/
def load_cache (asset_list : List PyVal) :
    Except PyErr (List (Int × AssetData)) := do
  let loaded ← asset_list.mapM AssetData_from_dict
  pure (loaded.foldl (fun acc a => dictSet a.asset_id a acc) [])

/-- Embeds assets.py _cond_set: the new value wins unless it is None. -/
def _cond_set {α : Type} (new old : Option α) : Option α :=
  match new with
  | some v => some v
  | none => old

/-- Sets the filename on the first list element with the given key. -/
def set_filename_first :
    List TextureMap → (MapType × String × Option String × Option String) →
    String → List TextureMap
  | [], _, _ => []
  | tm :: rest, key, fname =>
    if tm.key_tuple = key then { tm with filename := fname } :: rest
    else tm :: set_filename_first rest key fname

/-- Sets the filename on the last list element with the given key: the
dict comprehension of Texture._map_key_dict keeps the last occurrence per
key, and the in-place mutation hits that object. -/
def set_filename_last (l : List TextureMap)
    (key : MapType × String × Option String × Option String)
    (fname : String) : List TextureMap :=
  (set_filename_first l.reverse key fname).reverse

/-- Embeds the per-workflow merge loop of Texture.update: the key dict is
built once from the existing list, then every new map either updates the
filename of the existing map in its slot or is appended. -/
def merge_tex_maps (existing tex_maps_new : List TextureMap) :
    List TextureMap :=
  let keys0 := existing.map TextureMap.key_tuple
  tex_maps_new.foldl
    (fun acc tm_new =>
      if tm_new.key_tuple ∈ keys0 then
        set_filename_last acc tm_new.key_tuple tm_new.filename
      else acc ++ [tm_new])
    existing

/-- Embeds assets.py Texture.update: early return on None, conditional
field overwrites, the purge_maps reset, then the merge loop over the new
maps dict. A None new maps dict raises AttributeError on items(); a None
self maps dict raises TypeError on the membership test, reached only when
the new maps dict is nonempty. -/
def Texture.update (self : Texture) (type_data_new : Option Texture)
    (purge_maps : Bool) : Except PyErr Texture :=
  match type_data_new with
  | none => Except.ok self
  | some new =>
    let s : Texture :=
      { self with
        map_descs := _cond_set new.map_descs self.map_descs
        sizes := _cond_set new.sizes self.sizes
        variants := _cond_set new.variants self.variants
        lods := _cond_set new.lods self.lods
        watermarked_urls :=
          _cond_set new.watermarked_urls self.watermarked_urls }
    let s := if purge_maps then { s with maps := some [] } else s
    match new.maps with
    | none => Except.error PyErr.attributeError
    | some new_maps =>
      new_maps.foldlM
        (fun (t : Texture) (wf_entry : String × List TextureMap) =>
          match t.maps with
          | none => Except.error PyErr.typeError
          | some cur =>
            match cur.lookup wf_entry.1 with
            | none =>
              Except.ok { t with maps := some (dictSet wf_entry.1 wf_entry.2 cur) }
            | some existing =>
              Except.ok
                { t with
                  maps := some (dictSet wf_entry.1
                    (merge_tex_maps existing wf_entry.2) cur) })
        s

/-- Embeds assets.py Hdri.update: early return on None, then both inner
textures are updated (their update argument is never None here, since
Hdri.bg and Hdri.light are mandatory). -/
def Hdri.update (self : Hdri) (type_data_new : Option Hdri)
    (purge_maps : Bool) : Except PyErr Hdri :=
  match type_data_new with
  | none => Except.ok self
  | some new => do
    let bg ← self.bg.update (some new.bg) purge_maps
    let light ← self.light.update (some new.light) purge_maps
    Except.ok ⟨bg, light⟩

/-- Embeds assets.py Brush.update. -/
def Brush.update (self : Brush) (type_data_new : Option Brush)
    (purge_maps : Bool) : Except PyErr Brush :=
  match type_data_new with
  | none => Except.ok self
  | some new => do
    let alpha ← self.alpha.update (some new.alpha) purge_maps
    Except.ok ⟨alpha⟩

/-- Embeds assets.py Model.update: early return on None, conditional
field overwrites, then the texture slot is either adopted from the new
data (when still None) or updated in place. -/
def Model.update (self : Model) (type_data_new : Option Model)
    (purge_maps : Bool) : Except PyErr Model :=
  match type_data_new with
  | none => Except.ok self
  | some new =>
    let s : Model :=
      { self with
        meshes := _cond_set new.meshes self.meshes
        lods := _cond_set new.lods self.lods
        sizes := _cond_set new.sizes self.sizes
        variants := _cond_set new.variants self.variants }
    match s.texture with
    | none => Except.ok { s with texture := new.texture }
    | some t => do
      let t2 ← t.update new.texture purge_maps
      Except.ok { s with texture := some t2 }

/-- The one-of type payload returned by AssetData.get_type_data. -/
inductive TypeData where
  | brush (b : Brush)
  | hdri (h : Hdri)
  | model (m : Model)
  | texture (t : Texture)
  deriving DecidableEq, Repr

/-- Embeds assets.py AssetData.get_type_data: dispatch on asset_type;
SUBSTANCE raises NotImplementedError and any other unsupported type raises
TypeError. The selected payload field may itself be None. -/
def AssetData.get_type_data (a : AssetData) : Except PyErr (Option TypeData) :=
  match a.asset_type with
  | AssetType.BRUSH => Except.ok (a.brush.map TypeData.brush)
  | AssetType.HDRI => Except.ok (a.hdri.map TypeData.hdri)
  | AssetType.MODEL => Except.ok (a.model.map TypeData.model)
  | AssetType.SUBSTANCE => Except.error PyErr.notImplementedError
  | AssetType.TEXTURE => Except.ok (a.texture.map TypeData.texture)
  | AssetType.UNSUPPORTED => Except.error PyErr.typeError

/-- Embeds assets.py AssetData.update: conditional overwrites field by
field - with the published_at line reading thumb_urls on both sides, as
the source does - then the type payload update. A None own payload raises
AttributeError on the update call; a payload of a different class than the
new data raises AttributeError inside the duck-typed update. -/
def AssetData.update (self new : AssetData) (purge_maps : Bool) :
    Except PyErr AssetData := do
  let s : AssetData :=
    { self with
      display_name := _cond_set new.display_name self.display_name
      categories := _cond_set new.categories self.categories
      url := _cond_set new.url self.url
      slug := _cond_set new.slug self.slug
      thumb_urls := _cond_set new.thumb_urls self.thumb_urls
      published_at := _cond_set new.thumb_urls self.thumb_urls
      is_local := _cond_set new.is_local self.is_local
      downloaded_at := _cond_set new.downloaded_at self.downloaded_at
      is_purchased := _cond_set new.is_purchased self.is_purchased
      purchased_at := _cond_set new.purchased_at self.purchased_at
      render_custom_schema :=
        _cond_set new.render_custom_schema self.render_custom_schema }
  let td_self ← s.get_type_data
  let td_new ← new.get_type_data
  match td_self with
  | none => Except.error PyErr.attributeError
  | some (TypeData.texture t) =>
    match td_new with
    | none => Except.ok { s with texture := some t }
    | some (TypeData.texture tn) => do
      let t2 ← t.update (some tn) purge_maps
      Except.ok { s with texture := some t2 }
    | some _ => Except.error PyErr.attributeError
  | some (TypeData.model m) =>
    match td_new with
    | none => Except.ok { s with model := some m }
    | some (TypeData.model mn) => do
      let m2 ← m.update (some mn) purge_maps
      Except.ok { s with model := some m2 }
    | some _ => Except.error PyErr.attributeError
  | some (TypeData.hdri h) =>
    match td_new with
    | none => Except.ok { s with hdri := some h }
    | some (TypeData.hdri hn) => do
      let h2 ← h.update (some hn) purge_maps
      Except.ok { s with hdri := some h2 }
    | some _ => Except.error PyErr.attributeError
  | some (TypeData.brush b) =>
    match td_new with
    | none => Except.ok { s with brush := some b }
    | some (TypeData.brush bn) => do
      let b2 ← b.update (some bn) purge_maps
      Except.ok { s with brush := some b2 }
    | some _ => Except.error PyErr.attributeError

/-- Embeds asset_index.py AssetIndex.update_asset: a missing asset id is a
silent no-op; changing asset_id, asset_name or asset_type raises
ValueError; otherwise the stored AssetData is updated in place. -/
def update_asset (all_assets : List (Int × AssetData)) (asset_id : Int)
    (asset_data_new : AssetData) (purge_maps : Bool) :
    Except PyErr (List (Int × AssetData)) :=
  match all_assets.lookup asset_id with
  | none => Except.ok all_assets
  | some asset_data =>
    if asset_id ≠ asset_data_new.asset_id then Except.error PyErr.valueError
    else if asset_data.asset_name ≠ asset_data_new.asset_name then
      Except.error PyErr.valueError
    else if asset_data.asset_type ≠ asset_data_new.asset_type then
      Except.error PyErr.valueError
    else do
      let updated ← asset_data.update asset_data_new purge_maps
      Except.ok (dictSet asset_id updated all_assets)

/-! Concrete instances used by the counterexamples and witnesses. -/

/-- An AssetData with the mandatory fields set and everything else None. -/
def asset_base (i : Int) (ty : AssetType) (nm : String) : AssetData :=
  { asset_id := i, asset_type := ty, asset_name := nm,
    display_name := none, categories := none, url := none, slug := none,
    credits := none, thumb_urls := none, published_at := none,
    is_local := none, downloaded_at := none, is_purchased := none,
    purchased_at := none, render_custom_schema := none,
    brush := none, hdri := none, model := none, texture := none }

/-- A concrete texture map found on disc. -/
def tex_map_ex : TextureMap :=
  ⟨"/lib/Metal001", "Metal001_COL_1K.png", none, MapType.COL, "1K", none⟩

/-- A concrete populated Texture payload. -/
def texture_ex : Texture :=
  { lods := none, map_descs := none,
    maps := some [("REGULAR", [tex_map_ex])],
    sizes := some ["1K"], variants := none, watermarked_urls := none }

/-- A concrete populated Texture asset. -/
def tex_asset_ex : AssetData :=
  { asset_base 1 AssetType.TEXTURE "Metal001" with texture := some texture_ex }

/-- A concrete populated HDRI asset. -/
def hdri_asset_ex : AssetData :=
  { asset_base 2 AssetType.HDRI "Sky001" with
    hdri := some ⟨texture_ex, texture_ex⟩ }

/-- A concrete populated Brush asset. -/
def brush_asset_ex : AssetData :=
  { asset_base 3 AssetType.BRUSH "Brush001" with brush := some ⟨texture_ex⟩ }

/-- A concrete model mesh found on disc. -/
def model_mesh_ex : ModelMesh :=
  ⟨"/lib/Chair001", "Chair001_LOD0.fbx", "LOD0", ModelType.FBX⟩

/-- A concrete populated Model payload. -/
def model_ex : Model :=
  { lods := some ["LOD0"], meshes := some [model_mesh_ex],
    sizes := some ["1K"], texture := none, variants := none }

/-- A concrete populated Model asset. -/
def model_asset_ex : AssetData :=
  { asset_base 4 AssetType.MODEL "Chair001" with model := some model_ex }

/-- An index holding one populated asset of each supported type. -/
def index_ex : List (Int × AssetData) :=
  [(1, tex_asset_ex), (2, hdri_asset_ex), (3, brush_asset_ex),
   (4, model_asset_ex)]

/-- A partial Texture payload whose fields are all None except the empty
maps dict (its dataclass default). -/
def tex_new_ex : Texture :=
  { lods := none, map_descs := none, maps := some [],
    sizes := none, variants := none, watermarked_urls := none }

/-- An indexed asset with known published_at and thumb_urls values. -/
def old4 : AssetData :=
  { asset_base 101 AssetType.TEXTURE "Metal002" with
    texture := some texture_ex,
    published_at := some (PyVal.vstr "2021-03-01"),
    thumb_urls := some (PyVal.vlist [PyVal.vstr "thumb_a.png"]) }

/-- A partial update for the same asset with every optional field None. -/
def new4 : AssetData :=
  { asset_base 101 AssetType.TEXTURE "Metal002" with
    texture := some tex_new_ex }

/-- What update_asset actually produces for old4 and new4: published_at is
overwritten with the thumb_urls value. -/
def expected4 : AssetData :=
  { old4 with published_at := some (PyVal.vlist [PyVal.vstr "thumb_a.png"]) }

/-- The empty addon state. -/
def addon_state0 : AddonState := ⟨[], [], []⟩

/-- State after queueing asset 1 at size 1K. -/
def st_first : AddonState := queue_download addon_state0 1 (some "1K")

/-- State after queueing asset 1 again, at size 4K, while the first
download is still queued. -/
def st_second : AddonState := queue_download st_first 1 (some "4K")

/-- Attempt sequence where URL resolution succeeds with an empty file list
on the first three attempts and yields files on the fourth. -/
def attempts_empty_ok : Nat → AttemptOutcome := fun i =>
  if i < 3 then AttemptOutcome.files [] false
  else AttemptOutcome.files [100, 50] false

/-- Attempt sequence where URL resolution fails outright three times and
yields files on the fourth attempt. -/
def attempts_fail3 : Nat → AttemptOutcome := fun i =>
  if i < 3 then AttemptOutcome.url_fail
  else AttemptOutcome.files [100, 50] false

/-- A concrete file download descriptor of the given expected size. -/
def dl_ex (sz : Nat) : FileDownload :=
  ⟨42, "url", "file", sz, 0, DownloadStatus.initialized, ""⟩

/-- The four remote files of the size-ordering scenario. -/
def dl_list_ex : List FileDownload :=
  [dl_ex 500, dl_ex 100, dl_ex 2000, dl_ex 300]

/-- Environment where the temp-suffixed file already exists. -/
def env5 : StreamEnv := ⟨true, false, false, false, 0, [], none, none⟩

/-- Descriptor used with env5. -/
def dl5 : FileDownload := ⟨42, "url", "f.png", 10, 0, DownloadStatus.waiting, "/lib"⟩

/-- Environment for a clean streaming download of 10 bytes in two chunks. -/
def env6 : StreamEnv := ⟨false, false, true, true, 10, [4, 6], none, none⟩

/-- Descriptor used with env6, expecting 10 bytes. -/
def dl6 : FileDownload := ⟨42, "url", "g.png", 10, 0, DownloadStatus.waiting, "/lib"⟩

/-! Helper lemmas shared by several proofs. -/

/-- Lookup after a keyed insert finds the inserted value. -/
theorem dictSet_lookup {α β : Type} [DecidableEq α] (k : α) (v : β)
    (l : List (α × β)) : (dictSet k v l).lookup k = some v := by
  induction l with
  | nil => simp [dictSet, List.lookup]
  | cons p rest ih =>
    obtain ⟨k2, v2⟩ := p
    by_cases h : k2 = k
    · simp [dictSet, h, List.lookup]
    · simp only [dictSet, if_neg h, List.lookup]
      have hbeq : (k == k2) = false := by
        simp [beq_eq_false_iff_ne]
        exact fun he => h he.symm
      rw [hbeq]
      exact ih

/-- With no write failure the chunk loop never exits with OSError. -/
theorem stream_chunks_no_os_error (cancel_time : Option Nat) :
    ∀ (l : List Nat) (i acc : Nat),
      (stream_chunks cancel_time none l i acc).2 ≠ LoopExit.os_error := by
  intro l
  induction l with
  | nil => intro i acc; simp [stream_chunks]
  | cons c rest ih =>
    intro i acc
    show (stream_chunks cancel_time none (c :: rest) i acc).2 ≠ LoopExit.os_error
    rw [stream_chunks]
    rw [if_neg (by simp)]
    by_cases hc : cancel_seen cancel_time (i + 1) = true
    · rw [if_pos hc]; simp
    · rw [if_neg hc]; exact ih (i + 1) (acc + c)

/-- A run of failed URL resolutions inside the retry budget followed by a
good file list succeeds on the attempt after the failures. -/
theorem download_asset_loop_skips_url_fail (attempts : Nat → AttemptOutcome) :
    ∀ (k retries idx : Nat) (sizes : List Nat), k < retries →
      (∀ i, i < k → attempts (idx + i) = AttemptOutcome.url_fail) →
      attempts (idx + k) = AttemptOutcome.files sizes false →
      sizes.sum ≠ 0 →
      download_asset_loop attempts retries idx =
        DownloadOutcome.success (idx + k + 1) := by
  intro k
  induction k with
  | zero =>
    intro retries idx sizes hk hfail hok hsz
    match retries, hk with
    | r + 1, _ =>
      rw [download_asset_loop]
      simp only [Nat.add_zero] at hok
      rw [hok]
      simp [hsz]
  | succ k ih =>
    intro retries idx sizes hk hfail hok hsz
    match retries, hk with
    | r + 1, hk =>
      rw [download_asset_loop]
      have h0 : attempts idx = AttemptOutcome.url_fail := by
        have := hfail 0 (Nat.succ_pos k)
        simpa using this
      rw [h0]
      have hres := ih r (idx + 1) sizes (Nat.lt_of_succ_lt_succ hk)
        (fun i hi => by
          have := hfail (i + 1) (Nat.succ_lt_succ hi)
          have he : idx + (i + 1) = idx + 1 + i := by omega
          rwa [he] at this)
        (by
          have he : idx + (k + 1) = idx + 1 + k := by omega
          rwa [he] at hok)
        hsz
      rw [hres]
      have he2 : idx + 1 + k + 1 = idx + (k + 1) + 1 := by omega
      rw [he2]

/-! Theorems settling the claims. -/

/-- C1 counterexample: with a download for asset 1 still queued (and not
cancelled), a second queue_download call does not observe the existing
queue entry: it replaces the entry (the stored size changes from 1K to 4K)
and schedules a second independent download_asset job. -/
theorem C1_counterexample :
    is_download_queued st_first 1 = true ∧
    st_first.scheduled_jobs = [(1, some "1K")] ∧
    st_second.scheduled_jobs = [(1, some "1K"), (1, some "4K")] ∧
    st_second.download_queue.lookup 1 = some ⟨1, some "4K", none, true⟩ ∧
    st_first.download_queue.lookup 1 = some ⟨1, some "1K", none, true⟩ ∧
    (⟨1, some "4K", none, true⟩ : QueueEntry) ≠ ⟨1, some "1K", none, true⟩ := by
  refine ⟨rfl, rfl, rfl, rfl, rfl, by decide⟩

/-- C1 amended: queue_download never checks the queue; it unconditionally
replaces the per-asset queue entry and schedules one new download_asset
job per call, so at-most-one-download-per-asset holds only when the caller
consults is_download_queued - true exactly when the asset id is in the
queue and not in the cancelled set - before re-queuing. -/
theorem C1_queue_download_amended (st : AddonState) (asset_id : Int)
    (size : Option String) :
    (queue_download st asset_id size).scheduled_jobs =
      st.scheduled_jobs ++ [(asset_id, size)] ∧
    (queue_download st asset_id size).download_queue.lookup asset_id =
      some ⟨asset_id, size, none, true⟩ ∧
    (is_download_queued st asset_id = true ↔
      ((st.download_queue.lookup asset_id).isSome = true ∧
        asset_id ∉ st.download_cancelled)) := by
  refine ⟨rfl, ?_, ?_⟩
  · exact dictSet_lookup asset_id _ _
  · simp [is_download_queued]

/-- C2 counterexample: a descriptor in the final state DONE does not stay
DONE under a subsequent set_status_ongoing call - the status is overwritten
with ONGOING. -/
theorem C2_counterexample :
    applyStatusCalls DownloadStatus.done [StatusCall.ongoing] =
      DownloadStatus.ongoing ∧
    DownloadStatus.ongoing ≠ DownloadStatus.done := by
  exact ⟨rfl, by decide⟩

/-- C2 amended: DONE and ERROR are terminal with respect to
set_status_cancelled - any sequence of cancellation calls leaves them
unchanged - but not with respect to set_status_ongoing, which overwrites
every status except CANCELLED (DONE and ERROR included) with ONGOING and
returns true; only a CANCELLED status blocks it, with result false. -/
theorem C2_terminal_amended :
    (∀ s : DownloadStatus,
      (s = DownloadStatus.done ∨ s = DownloadStatus.error) →
      ∀ calls : List StatusCall, (∀ c ∈ calls, c = StatusCall.cancel) →
        applyStatusCalls s calls = s) ∧
    (∀ s : DownloadStatus, s ≠ DownloadStatus.cancelled →
      set_status_ongoing s = (DownloadStatus.ongoing, true)) ∧
    set_status_ongoing DownloadStatus.cancelled =
      (DownloadStatus.cancelled, false) := by
  refine ⟨?_, ?_, rfl⟩
  · intro s hs calls hcalls
    induction calls with
    | nil => rfl
    | cons c cs ih =>
      have hc : c = StatusCall.cancel := hcalls c (List.mem_cons_self c cs)
      have hkeep : applyStatusCall s c = s := by
        subst hc
        rcases hs with h | h <;> simp [applyStatusCall, set_status_cancelled, h]
      show applyStatusCalls s (c :: cs) = s
      rw [applyStatusCalls, List.foldl_cons, hkeep]
      exact ih (fun c2 h2 => hcalls c2 (List.mem_cons_of_mem c h2))
  · intro s hs
    simp [set_status_ongoing, hs]

/-- C2 witness: the amended theorem applied to the DONE state with two
cancellation calls and to an INITIALIZED descriptor starting to run. -/
theorem C2_witness :
    applyStatusCalls DownloadStatus.done [StatusCall.cancel, StatusCall.cancel] =
      DownloadStatus.done ∧
    set_status_ongoing DownloadStatus.initialized =
      (DownloadStatus.ongoing, true) :=
  ⟨C2_terminal_amended.1 DownloadStatus.done (Or.inl rfl)
      [StatusCall.cancel, StatusCall.cancel] (by decide),
   C2_terminal_amended.2.1 DownloadStatus.initialized (by decide)⟩

/-- C3 evaluation at the failing input: an index holding one populated
asset of each type (Texture, HDRI, Brush, Model) survives save_cache, but
load_cache raises KeyError("meshes") instead of reconstructing the index,
because Model._from_dict feeds every serialized mesh dict back into
Model._from_dict (instead of ModelMesh._from_dict) and a mesh dict has no
meshes key. -/
theorem C3_load_cache_raises :
    load_cache (save_cache index_ex) =
      Except.error (PyErr.keyError "meshes") := by rfl

/-- C4 evaluation at the failing input: updating asset 101 with a partial
AssetData whose optional fields are all None overwrites the stored
published_at value with the stored thumb_urls value, because the
published_at line of AssetData.update reads thumb_urls on both sides. -/
theorem C4_update_overwrites_published_at :
    update_asset [(101, old4)] 101 new4 false = Except.ok [(101, expected4)] ∧
    old4.published_at = some (PyVal.vstr "2021-03-01") ∧
    new4.published_at = none ∧
    new4.thumb_urls = none ∧
    expected4.published_at = some (PyVal.vlist [PyVal.vstr "thumb_a.png"]) ∧
    expected4.published_at ≠ old4.published_at := by
  refine ⟨rfl, rfl, rfl, rfl, rfl, ?_⟩
  simp [expected4, old4, asset_base]

/-- C5: when the temp-suffixed or the final path already exists on disk,
download_asset_file succeeds without any network request and the
descriptor ends in status DONE. -/
theorem C5_idempotent_exists (env : StreamEnv) (download : FileDownload)
    (h : env.exists_temp = true ∨ env.exists_final = true) :
    (download_asset_file env download).ok = true ∧
    (download_asset_file env download).net_requests = 0 ∧
    (download_asset_file env download).download.status = DownloadStatus.done := by
  rcases h with h | h <;>
    simp [download_asset_file, h, set_status_done]

/-- C5 witness: the theorem applied to a descriptor whose temp file
already exists. -/
theorem C5_witness :
    (env5.exists_temp = true ∨ env5.exists_final = true) ∧
    ((download_asset_file env5 dl5).ok = true ∧
     (download_asset_file env5 dl5).net_requests = 0 ∧
     (download_asset_file env5 dl5).download.status = DownloadStatus.done) :=
  ⟨Or.inl rfl, C5_idempotent_exists env5 dl5 (Or.inl rfl)⟩

/-- C7 counterexample: a URL resolution that succeeds with an empty file
list is not treated as a transient failure to be retried - size_asset is 0,
the first poll iteration divides by it, and the download thread crashes on
the first attempt; in particular three empty lists followed by a good list
do not lead to success on attempt 4. -/
theorem C7_counterexample :
    download_asset_retry attempts_empty_ok =
      DownloadOutcome.zero_division_crash ∧
    DownloadOutcome.zero_division_crash ≠ DownloadOutcome.success 4 ∧
    DownloadOutcome.zero_division_crash ≠ DownloadOutcome.retries_exhausted := by
  refine ⟨rfl, by decide, by decide⟩

/-- C7 amended: only a failed URL resolution (get_download_list returning
None) is transient: it decrements the retry budget and loops. With fewer
than MAX_DOWNLOAD_RETRIES = 10 such failures followed by a resolution
yielding files of nonzero total size that all download cleanly, the
download succeeds on the attempt after the failures; in particular three
failures then files gives success on attempt 4. -/
theorem C7_url_fail_retry_amended (attempts : Nat → AttemptOutcome)
    (k : Nat) (sizes : List Nat)
    (hk : k < MAX_DOWNLOAD_RETRIES)
    (hfail : ∀ i, i < k → attempts i = AttemptOutcome.url_fail)
    (hok : attempts k = AttemptOutcome.files sizes false)
    (hsz : sizes.sum ≠ 0) :
    download_asset_retry attempts = DownloadOutcome.success (k + 1) := by
  have h := download_asset_loop_skips_url_fail attempts k MAX_DOWNLOAD_RETRIES 0
    sizes hk (fun i hi => by simpa using hfail i hi) (by simpa using hok) hsz
  simpa [download_asset_retry] using h

/-- C7 witness: the amended theorem applied to three outright URL failures
followed by a good two-file list, succeeding on attempt 4. -/
theorem C7_witness :
    (3 < MAX_DOWNLOAD_RETRIES ∧ ([100, 50] : List Nat).sum ≠ 0) ∧
    download_asset_retry attempts_fail3 = DownloadOutcome.success 4 :=
  ⟨⟨by decide, by decide⟩,
   C7_url_fail_retry_amended attempts_fail3 3 [100, 50] (by decide)
     (fun i hi => by simp [attempts_fail3, hi])
     (by simp [attempts_fail3])
     (by decide)⟩

/-- C8: schedule_downloads submits the files in non-decreasing
size_expected order - the submission list is pairwise ordered by size and
its sizes are a permutation of the input sizes - for every input order of
a list with distinct sizes. -/
theorem C8_size_order (dl_list : List FileDownload) (directory : String)
    (hdist : (dl_list.map FileDownload.size_expected).Nodup) :
    List.Pairwise size_le (schedule_downloads dl_list directory) ∧
    ((schedule_downloads dl_list directory).map FileDownload.size_expected).Perm
      (dl_list.map FileDownload.size_expected) := by
  constructor
  · have hs := List.sorted_insertionSort size_le dl_list
    exact List.Pairwise.map _ (fun a b h => h) hs
  · have hperm := List.perm_insertionSort size_le dl_list
    have h1 : (schedule_downloads dl_list directory).map
        FileDownload.size_expected =
        (List.insertionSort size_le dl_list).map FileDownload.size_expected := by
      simp [schedule_downloads]
    rw [h1]
    exact hperm.map FileDownload.size_expected

/-- C8 witness: the theorem applied to the four files of the scenario, in
the scrambled input order 500, 100, 2000, 300, also showing the concrete
submission order 100, 300, 500, 2000. -/
theorem C8_witness :
    (dl_list_ex.map FileDownload.size_expected).Nodup ∧
    List.Pairwise size_le (schedule_downloads dl_list_ex "/lib") ∧
    (schedule_downloads dl_list_ex "/lib").map FileDownload.size_expected =
      [100, 300, 500, 2000] :=
  ⟨by decide, (C8_size_order dl_list_ex "/lib" (by decide)).1, by rfl⟩

/-- C10: get_size returns WM unconditionally, even for a texture whose
available size list does not contain WM, so neither the closest-size
fallback nor the KeyError path is ever taken for the watermarked size. -/
theorem C10_get_size_WM (tex_sizes : List String) :
    get_size tex_sizes "WM" = Except.ok "WM" := by
  simp [get_size]

/-- Helper: download_asset_file never renames the temp suffix away, on any
input whatsoever. -/
theorem download_asset_file_no_rename (env : StreamEnv) (d : FileDownload) :
    FsOp.rename_temp_to_final ∉ (download_asset_file env d).fs_ops := by
  intro hmem
  unfold download_asset_file at hmem
  by_cases hA : (env.exists_temp || env.exists_final) = true
  · rw [if_pos hA] at hmem; simp at hmem
  · rw [if_neg hA] at hmem
    by_cases hB : (!env.request_ok) = true
    · rw [if_pos hB] at hmem; simp at hmem
    · rw [if_neg hB] at hmem
      by_cases hC : (!env.has_stream) = true
      · rw [if_pos hC] at hmem; simp at hmem
      · rw [if_neg hC] at hmem
        by_cases hD : (set_status_ongoing
            (if cancel_seen env.cancel_time 0 then
              set_status_cancelled d.status else d.status)).2 = false
        · rw [if_pos hD] at hmem; simp at hmem
        · rw [if_neg hD] at hmem
          simp only [] at hmem
          rcases hE : (stream_chunks env.cancel_time env.write_fail
              env.chunks 0 0).2 with _ | _ | _ <;>
            rw [hE] at hmem
          · by_cases hF : d.size_expected =
                (stream_chunks env.cancel_time env.write_fail env.chunks 0 0).1 ∧
                (stream_chunks env.cancel_time env.write_fail env.chunks 0 0).1 =
                  env.content_length
            · simp [hF] at hmem
            · simp [hF] at hmem
          · by_cases hF : d.size_expected =
                (stream_chunks env.cancel_time env.write_fail env.chunks 0 0).1 ∧
                (stream_chunks env.cancel_time env.write_fail env.chunks 0 0).1 =
                  env.content_length
            · simp [hF] at hmem
            · simp [hF] at hmem
          · simp at hmem

/-- C6: for a streaming download that actually runs to the size check (the
file did not already exist, the stream opened with a Content-Length, the
descriptor was not cancelled before the start, and no write raised
OSError), the call succeeds exactly when size_expected, the downloaded
byte count and the server-reported Content-Length all agree; on any
mismatch - a cancellation stop included - the call fails and deletes the
partial temp file; a success ends in status DONE; and on no input does
this function rename the temp suffix away. -/
theorem C6_size_verification (env : StreamEnv) (download : FileDownload)
    (h1 : env.exists_temp = false) (h2 : env.exists_final = false)
    (h3 : env.request_ok = true) (h4 : env.has_stream = true)
    (h5 : cancel_seen env.cancel_time 0 = false)
    (h6 : download.status ≠ DownloadStatus.cancelled)
    (h7 : env.write_fail = none) :
    ((download_asset_file env download).ok = true ↔
      (download.size_expected =
        (download_asset_file env download).download.size_downloaded ∧
       (download_asset_file env download).download.size_downloaded =
        env.content_length)) ∧
    ((download_asset_file env download).ok = false →
      FsOp.delete_temp ∈ (download_asset_file env download).fs_ops) ∧
    ((download_asset_file env download).ok = true →
      (download_asset_file env download).download.status =
        DownloadStatus.done) ∧
    (∀ (env2 : StreamEnv) (d2 : FileDownload),
      FsOp.rename_temp_to_final ∉ (download_asset_file env2 d2).fs_ops) := by
  have hnoos := stream_chunks_no_os_error env.cancel_time env.chunks 0 0
  simp only [download_asset_file, h1, h2, h3, h4, h5, h7, Bool.or_self,
    Bool.not_true, Bool.false_eq_true, if_false, ite_false, ite_true,
    Bool.not_false, Bool.true_eq_false]
  simp only [set_status_ongoing, if_neg h6]
  rcases hexit : (stream_chunks env.cancel_time none env.chunks 0 0).2 with _ | _ | _
  · by_cases hsz : download.size_expected =
        (stream_chunks env.cancel_time none env.chunks 0 0).1 ∧
        (stream_chunks env.cancel_time none env.chunks 0 0).1 =
          env.content_length
    · simp only [hexit, if_pos hsz, set_status_done]
      refine ⟨by simp [hsz.1, hsz.2], by simp, by simp,
        fun env2 d2 => download_asset_file_no_rename env2 d2⟩
    · simp only [hexit, if_neg hsz]
      refine ⟨by simpa using hsz, by simp, by simp,
        fun env2 d2 => download_asset_file_no_rename env2 d2⟩
  · by_cases hsz : download.size_expected =
        (stream_chunks env.cancel_time none env.chunks 0 0).1 ∧
        (stream_chunks env.cancel_time none env.chunks 0 0).1 =
          env.content_length
    · simp only [hexit, if_pos hsz, set_status_done]
      refine ⟨by simp [hsz.1, hsz.2], by simp, by simp,
        fun env2 d2 => download_asset_file_no_rename env2 d2⟩
    · simp only [hexit, if_neg hsz]
      refine ⟨by simpa using hsz, by simp, by simp,
        fun env2 d2 => download_asset_file_no_rename env2 d2⟩
  · exact absurd hexit hnoos

/-- C6 witness: the theorem applied to a clean two-chunk download of 10
bytes whose Content-Length is 10, delivering the size-match success. -/
theorem C6_witness :
    (((download_asset_file env6 dl6).ok = true ↔
      (dl6.size_expected =
        (download_asset_file env6 dl6).download.size_downloaded ∧
       (download_asset_file env6 dl6).download.size_downloaded =
        env6.content_length)) ∧
    ((download_asset_file env6 dl6).ok = false →
      FsOp.delete_temp ∈ (download_asset_file env6 dl6).fs_ops) ∧
    ((download_asset_file env6 dl6).ok = true →
      (download_asset_file env6 dl6).download.status =
        DownloadStatus.done) ∧
    (∀ (env2 : StreamEnv) (d2 : FileDownload),
      FsOp.rename_temp_to_final ∉ (download_asset_file env2 d2).fs_ops)) ∧
    (download_asset_file env6 dl6).ok = true :=
  ⟨C6_size_verification env6 dl6 rfl rfl rfl rfl rfl (by decide) rfl, rfl⟩

/-- Helper: the natural distance of two numbers below a bound stays below
that bound. -/
theorem nat_dist_lt {a b n : Nat} (ha : a < n) (hb : b < n) :
    Nat.dist a b < n := by
  simp only [Nat.dist]
  omega

/-- Helper: every member of SIZES occurs in the enumeration paired with
its index. -/
theorem mem_enum_of_mem_SIZES {t : String} (ht : t ∈ SIZES) :
    (SIZES.indexOf t, t) ∈ SIZES.enum := by
  rw [List.mk_mem_enum_iff_getElem?]
  rw [List.getElem?_eq_getElem (List.indexOf_lt_length.mpr ht)]
  rw [List.getElem_indexOf]

/-- Invariant lemma for the scan loop of find_closest_size. The list l is
the remaining suffix of the enumerated SIZES; provided the accumulator is
sound (an empty best comes with a threshold no remaining candidate can
miss, a nonempty best is a candidate at distance dist_min lying before all
remaining pairs), the final result is a candidate of globally minimal
distance, first in scan order among the candidates at that distance, and
the scan comes back empty only when no remaining pair is a candidate. -/
theorem closest_scan_spec (tex : List String) (iw : Nat) :
    ∀ (l : List (Nat × String)) (dmin : Nat) (best : Option String),
      (∀ p ∈ l, p.2 ∈ SIZES ∧ p.1 = SIZES.indexOf p.2) →
      List.Pairwise (fun p q => p.1 < q.1) l →
      (best = none → ∀ p ∈ l, p.2 ∈ tex → Nat.dist iw p.1 < dmin) →
      (∀ b, best = some b →
        b ∈ tex ∧ b ∈ SIZES ∧ Nat.dist iw (SIZES.indexOf b) = dmin ∧
        ∀ p ∈ l, SIZES.indexOf b ≤ p.1) →
      (closest_scan tex iw l dmin best = none →
        best = none ∧ ∀ p ∈ l, p.2 ∉ tex) ∧
      (∀ r, closest_scan tex iw l dmin best = some r →
        r ∈ tex ∧ r ∈ SIZES ∧
        (∀ b, best = some b →
          r = b ∨ Nat.dist iw (SIZES.indexOf r) < Nat.dist iw (SIZES.indexOf b)) ∧
        (∀ p ∈ l, p.2 ∈ tex →
          Nat.dist iw (SIZES.indexOf r) ≤ Nat.dist iw p.1) ∧
        (∀ p ∈ l, p.2 ∈ tex →
          Nat.dist iw p.1 = Nat.dist iw (SIZES.indexOf r) →
          SIZES.indexOf r ≤ p.1)) := by
  intro l
  induction l with
  | nil =>
    intro dmin best hl hpw hnone hbest
    constructor
    · intro h
      have hbn : best = none := h
      exact ⟨hbn, fun p hp => absurd hp (List.not_mem_nil p)⟩
    · intro r hr
      have hbr : best = some r := hr
      obtain ⟨hb1, hb2, _, _⟩ := hbest r hbr
      refine ⟨hb1, hb2, ?_, ?_, ?_⟩
      · intro b hb
        rw [hbr] at hb
        injection hb with hb
        exact Or.inl hb
      · intro p hp; exact absurd hp (List.not_mem_nil p)
      · intro p hp; exact absurd hp (List.not_mem_nil p)
  | cons p rest ih =>
    intro dmin best hl hpw hnone hbest
    obtain ⟨i, s⟩ := p
    have hl_head := hl (i, s) (List.mem_cons_self _ _)
    have hl_rest : ∀ q ∈ rest, q.2 ∈ SIZES ∧ q.1 = SIZES.indexOf q.2 :=
      fun q hq => hl q (List.mem_cons_of_mem _ hq)
    have hpw_head : ∀ q ∈ rest, i < q.1 :=
      fun q hq => (List.pairwise_cons.mp hpw).1 q hq
    have hpw_rest := (List.pairwise_cons.mp hpw).2
    have hSs : s ∈ SIZES := hl_head.1
    have his : i = SIZES.indexOf s := hl_head.2
    have hstep : closest_scan tex iw ((i, s) :: rest) dmin best =
        if s ∈ tex ∧ Nat.dist iw i < dmin then
          closest_scan tex iw rest (Nat.dist iw i) (some s)
        else closest_scan tex iw rest dmin best := rfl
    rw [hstep]
    by_cases hc : s ∈ tex ∧ Nat.dist iw i < dmin
    · rw [if_pos hc]
      have ihspec := ih (Nat.dist iw i) (some s) hl_rest hpw_rest
        (fun h => nomatch h)
        (fun b hb => by
          injection hb with hb
          subst hb
          exact ⟨hc.1, hSs, by rw [← his],
            fun q hq => by rw [← his]; exact Nat.le_of_lt (hpw_head q hq)⟩)
      constructor
      · intro hn
        obtain ⟨hcontra, _⟩ := ihspec.1 hn
        exact absurd hcontra (by simp)
      · intro r hr
        obtain ⟨hrtex, hrSZ, hracc, hrmin, hrtie⟩ := ihspec.2 r hr
        have hrs := hracc s rfl
        have hDs : Nat.dist iw (SIZES.indexOf s) = Nat.dist iw i := by
          rw [← his]
        have hc2 : Nat.dist iw i < dmin := hc.2
        refine ⟨hrtex, hrSZ, ?_, ?_, ?_⟩
        · intro b hb
          obtain ⟨_, _, hbd, _⟩ := hbest b hb
          right
          rcases hrs with h | h
          · subst h
            omega
          · omega
        · intro q hq hqtex
          rcases List.mem_cons.mp hq with heq | hq2
          · subst heq
            show Nat.dist iw (SIZES.indexOf r) ≤ Nat.dist iw i
            rcases hrs with h | h
            · subst h; omega
            · omega
          · exact hrmin q hq2 hqtex
        · intro q hq hqtex hqd
          rcases List.mem_cons.mp hq with heq | hq2
          · subst heq
            have hqd2 : Nat.dist iw i = Nat.dist iw (SIZES.indexOf r) := hqd
            show SIZES.indexOf r ≤ i
            rcases hrs with h | h
            · subst h
              omega
            · omega
          · exact hrtie q hq2 hqtex hqd
    · rw [if_neg hc]
      have ihspec := ih dmin best hl_rest hpw_rest
        (fun h q hq hqt => hnone h q (List.mem_cons_of_mem _ hq) hqt)
        (fun b hb =>
          have h4 := hbest b hb
          ⟨h4.1, h4.2.1, h4.2.2.1,
            fun q hq => h4.2.2.2 q (List.mem_cons_of_mem _ hq)⟩)
      constructor
      · intro hn
        obtain ⟨hbn, hrest⟩ := ihspec.1 hn
        refine ⟨hbn, ?_⟩
        intro q hq
        rcases List.mem_cons.mp hq with heq | hq2
        · subst heq
          intro hst
          have hlt := hnone hbn (i, s) (List.mem_cons_self _ _) hst
          exact hc ⟨hst, hlt⟩
        · exact hrest q hq2
      · intro r hr
        obtain ⟨hrtex, hrSZ, hracc, hrmin, hrtie⟩ := ihspec.2 r hr
        refine ⟨hrtex, hrSZ, hracc, ?_, ?_⟩
        · intro q hq hqt
          rcases List.mem_cons.mp hq with heq | hq2
          · subst heq
            have hqt2 : s ∈ tex := hqt
            have hnd : ¬ Nat.dist iw i < dmin := fun hlt => hc ⟨hqt2, hlt⟩
            show Nat.dist iw (SIZES.indexOf r) ≤ Nat.dist iw i
            cases hbs : best with
            | none =>
              have hlt := hnone hbs (i, s) (List.mem_cons_self _ _) hqt2
              exact absurd hlt hnd
            | some b =>
              obtain ⟨_, _, hbd, _⟩ := hbest b hbs
              have hrb := hracc b hbs
              rcases hrb with h | h
              · subst h; omega
              · omega
          · exact hrmin q hq2 hqt
        · intro q hq hqt hqd
          rcases List.mem_cons.mp hq with heq | hq2
          · subst heq
            have hqt2 : s ∈ tex := hqt
            have hqd2 : Nat.dist iw i = Nat.dist iw (SIZES.indexOf r) := hqd
            have hnd : ¬ Nat.dist iw i < dmin := fun hlt => hc ⟨hqt2, hlt⟩
            show SIZES.indexOf r ≤ i
            cases hbs : best with
            | none =>
              have hlt := hnone hbs (i, s) (List.mem_cons_self _ _) hqt2
              exact absurd hlt hnd
            | some b =>
              obtain ⟨_, _, hbd, hble⟩ := hbest b hbs
              have hrb := hracc b hbs
              rcases hrb with h | h
              · subst h
                exact hble (i, s) (List.mem_cons_self _ _)
              · omega
          · exact hrtie q hq2 hqt hqd

/-- Specification of find_closest_size for a requested size occurring in
SIZES: an empty answer means no available size occurs in SIZES at all, and
a nonempty answer is an available canonical size of minimal index
distance, the first such in scan order. -/
theorem find_closest_size_spec (tex : List String) (size : String)
    (hSZ : size ∈ SIZES) :
    (find_closest_size tex size = none → ∀ t ∈ SIZES, t ∉ tex) ∧
    (∀ r, find_closest_size tex size = some r →
      r ∈ tex ∧ r ∈ SIZES ∧
      (∀ t ∈ SIZES, t ∈ tex → size_dist size r ≤ size_dist size t) ∧
      (∀ t ∈ SIZES, t ∈ tex → size_dist size t = size_dist size r →
        SIZES.indexOf r ≤ SIZES.indexOf t)) := by
  have hiw : SIZES.indexOf size < SIZES.length :=
    List.indexOf_lt_length.mpr hSZ
  have hl : ∀ p ∈ SIZES.enum, p.2 ∈ SIZES ∧ p.1 = SIZES.indexOf p.2 := by
    decide
  have hpw : List.Pairwise (fun p q : Nat × String => p.1 < q.1) SIZES.enum := by
    decide
  have hidx : ∀ p ∈ SIZES.enum, p.1 < SIZES.length := by decide
  have hspec := closest_scan_spec tex (SIZES.indexOf size) SIZES.enum
    SIZES.length none hl hpw
    (fun _ p hp _ => nat_dist_lt hiw (hidx p hp))
    (fun b hb => nomatch hb)
  constructor
  · intro hn t ht hmem
    have h1 := hspec.1 hn
    exact (h1.2 (SIZES.indexOf t, t) (mem_enum_of_mem_SIZES ht)) hmem
  · intro r hr
    obtain ⟨h1, h2, _, hmin, htie⟩ := hspec.2 r hr
    refine ⟨h1, h2, ?_, ?_⟩
    · intro t ht htex
      have := hmin (SIZES.indexOf t, t) (mem_enum_of_mem_SIZES ht) htex
      simpa [size_dist] using this
    · intro t ht htex hd
      have := htie (SIZES.indexOf t, t) (mem_enum_of_mem_SIZES ht) htex
        (by simpa [size_dist] using hd)
      simpa using this

/-- C9 counterexample: the claim has no carve-out for the watermarked
size, but get_size("WM") for a texture whose available sizes are only 1K
returns WM - which is not available - instead of the closest available
size 1K that the claim prescribes, and no KeyError is raised. -/
theorem C9_counterexample :
    get_size ["1K"] "WM" = Except.ok "WM" ∧
    "WM" ∉ (["1K"] : List String) ∧
    find_closest_size ["1K"] "WM" = some "1K" ∧
    (Except.ok "WM" : Except String String) ≠ Except.ok "1K" := by
  refine ⟨rfl, by decide, by rfl, by simp⟩

/-- C9 amended: for every requested size in the canonical SIZES list other
than the watermarked WM (which get_size returns unconditionally, see C10),
get_size returns the size itself when available; otherwise the call
returns with ok exactly when some available size occurs in SIZES - and
then the returned size is an available canonical size of minimal index
distance, ties broken toward the size found first in scan order - while
KeyError is raised exactly when no available size occurs in SIZES; in
particular get_size("5K") with available sizes 1K, 2K, 4K, 8K
returns 4K. -/
theorem C9_get_size_amended (tex_sizes : List String) (size : String)
    (hSZ : size ∈ SIZES) (hWM : size ≠ "WM") :
    (size ∈ tex_sizes → get_size tex_sizes size = Except.ok size) ∧
    (size ∉ tex_sizes →
      (∀ r, get_size tex_sizes size = Except.ok r →
        r ∈ tex_sizes ∧ r ∈ SIZES ∧
        (∀ t ∈ SIZES, t ∈ tex_sizes → size_dist size r ≤ size_dist size t) ∧
        (∀ t ∈ SIZES, t ∈ tex_sizes → size_dist size t = size_dist size r →
          SIZES.indexOf r ≤ SIZES.indexOf t)) ∧
      ((∃ t, t ∈ SIZES ∧ t ∈ tex_sizes) →
        ∃ r, get_size tex_sizes size = Except.ok r) ∧
      (∀ e, get_size tex_sizes size = Except.error e →
        ∀ t ∈ SIZES, t ∉ tex_sizes) ∧
      ((∀ t ∈ SIZES, t ∉ tex_sizes) →
        get_size tex_sizes size =
          Except.error ("No suitable size found (request: " ++ size ++ ")"))) ∧
    get_size ["1K", "2K", "4K", "8K"] "5K" = Except.ok "4K" := by
  have hfc := find_closest_size_spec tex_sizes size hSZ
  refine ⟨?_, ?_, by rfl⟩
  · intro hmem
    simp [get_size, hWM, hmem]
  · intro hnot
    refine ⟨?_, ?_, ?_, ?_⟩
    · intro r hr
      rw [get_size, if_neg hWM, if_neg hnot] at hr
      cases hfcv : find_closest_size tex_sizes size with
      | none => rw [hfcv] at hr; exact absurd hr (by simp)
      | some b =>
        rw [hfcv] at hr
        have hrb : b = r := by
          injection hr with hr2
        subst hrb
        exact hfc.2 b hfcv
    · rintro ⟨t, ht, htex⟩
      cases hfcv : find_closest_size tex_sizes size with
      | none => exact absurd htex (hfc.1 hfcv t ht)
      | some b =>
        refine ⟨b, ?_⟩
        rw [get_size, if_neg hWM, if_neg hnot, hfcv]
    · intro e he t ht htex
      rw [get_size, if_neg hWM, if_neg hnot] at he
      cases hfcv : find_closest_size tex_sizes size with
      | none => exact absurd htex (hfc.1 hfcv t ht)
      | some b =>
        rw [hfcv] at he
        simp at he
    · intro hall
      rw [get_size, if_neg hWM, if_neg hnot]
      cases hfcv : find_closest_size tex_sizes size with
      | none => rfl
      | some b =>
        obtain ⟨hb1, hb2, _, _⟩ := hfc.2 b hfcv
        exact absurd hb1 (hall b hb2)

/-- C9 witness: the amended theorem applied to the scenario texture with
available sizes 1K, 2K, 4K, 8K and requested size 5K, exercising both the
concrete scenario equation and the existence direction (5K is not
available, 1K is an available size in SIZES, and the call returns ok). -/
theorem C9_witness :
    ("5K" ∈ SIZES ∧ ("5K" : String) ≠ "WM" ∧
     "5K" ∉ (["1K", "2K", "4K", "8K"] : List String) ∧
     "1K" ∈ SIZES ∧ "1K" ∈ (["1K", "2K", "4K", "8K"] : List String)) ∧
    get_size ["1K", "2K", "4K", "8K"] "5K" = Except.ok "4K" ∧
    (∃ r, get_size ["1K", "2K", "4K", "8K"] "5K" = Except.ok r) :=
  ⟨⟨by decide, by decide, by decide, by decide, by decide⟩,
   (C9_get_size_amended ["1K", "2K", "4K", "8K"] "5K" (by decide)
     (by decide)).2.2,
   (((C9_get_size_amended ["1K", "2K", "4K", "8K"] "5K" (by decide)
     (by decide)).2.1 (by decide)).2.1 ⟨"1K", by decide, by decide⟩)⟩

end Poliigon
